import Mathlib

/-!
Shallow embedding of `src/project/ray_tracing/ray_tracing.py` (class `RayTracing`).

Python floats are modelled as real numbers for the geometric/trigonometric
computations.  Integer-valued quantities that the source feeds to python's
`range` (the layer boundaries `top`, `bottom`) are modelled as integers, and
the source depth — which python only compares against `range` elements and
subtracts — is modelled as a rational (every python float value is rational).
The per-method helpers keep the names of the python methods they embed.
-/

namespace RayTracing

/-- Conversion performed by python's `math.radians`. -/
noncomputable def radians (x : ℝ) : ℝ := x * (Real.pi / 180)

/-- Conversion performed by python's `math.degrees`. -/
noncomputable def degrees (x : ℝ) : ℝ := x * (180 / Real.pi)

open Classical in
/-- Embedding of `RayTracing.count_angle`: Snell's-law refraction angle, with
the sentinel value `-2` returned when `|sin_beta| > 1` (critical angle). -/
noncomputable def count_angle (cur_angle lower_layer_speed upper_layer_speed : ℝ) : ℝ :=
  let sin_beta := Real.sin (radians cur_angle) * (upper_layer_speed / lower_layer_speed)
  if 1 < |sin_beta| then -2 else degrees (Real.arcsin sin_beta)

/-- Embedding of `RayTracing.find_x_length`: horizontal offset through a layer. -/
noncomputable def find_x_length (triangle_angle thickness : ℝ) : ℝ :=
  Real.tan (radians triangle_angle) * thickness

/-- Embedding of `RayTracing.find_ray_length`: slant length through a layer. -/
noncomputable def find_ray_length (thickness x_length : ℝ) : ℝ :=
  Real.sqrt (thickness ^ 2 + x_length ^ 2)

/-- Embedding of `RayTracing.count_ray_duration`: travel time through a layer. -/
noncomputable def count_ray_duration (ray_length layer_speed : ℝ) : ℝ :=
  ray_length / layer_speed

/-- Embedding of `RayTracing.get_thickness`: `fabs(layer_bottom - layer_top)`. -/
def get_thickness (layer_bottom layer_top : ℝ) : ℝ :=
  |layer_bottom - layer_top|

/-- One layer of the seismic model: the triple `(top, bottom, velocity)`
(`seismic_model[i][0]`, `[1]`, `[2]`).  The boundaries are integers because the
source hands them to python's `range`, which rejects non-integer endpoints. -/
structure Layer where
  top : ℤ
  bottom : ℤ
  speed : ℝ

/-- Embedding of `RayTracing.is_layer_exist_source`: python's
`source_depth in range(top, bottom)`.  A real number is a member of
`range(top, bottom)` exactly when it equals some integer `k` with
`top ≤ k < bottom`; for a rational depth that means denominator 1 and
numerator in the half-open integer interval. -/
def is_layer_exist_source (source_depth : ℚ) (l : Layer) : Bool :=
  source_depth.den == 1 &&
    decide (l.top ≤ source_depth.num) && decide (source_depth.num < l.bottom)

/-- Embedding of the loop body of `RayTracing.calculate_ray_tracing_values`.
The list argument is the still-unvisited suffix of the seismic model, the
real argument is `cur_angle`, and the boolean records whether
`existing_counter` is nonzero (the source layer has been seen).  The lists
returned are `layers_values` (pairs `(x_length, thickness)`) and
`label_values` (pairs `(cur_angle, time)`) accumulated from this point on. -/
noncomputable def trace_loop (incid_angle : ℝ) (source_depth : ℚ) :
    List Layer → ℝ → Bool → List (ℝ × ℝ) × List (ℝ × ℝ)
  | [], _, _ => ([], [])
  | l :: rest, cur_angle, found =>
    let is_exist := is_layer_exist_source source_depth l
    if !is_exist && !found then
      -- `if not is_exist and existing_counter == 0: continue`
      trace_loop incid_angle source_depth rest cur_angle found
    else
      -- `if is_exist and existing_counter == 0`: reset the angle and use the
      -- thickness measured from the source depth.
      let cur_angle1 := if is_exist && !found then incid_angle else cur_angle
      let thickness :=
        if is_exist && !found then get_thickness (l.bottom : ℝ) (source_depth : ℝ)
        else get_thickness (l.bottom : ℝ) (l.top : ℝ)
      let x_length := find_x_length cur_angle1 thickness
      let ray_length := find_ray_length thickness x_length
      let time := count_ray_duration ray_length l.speed
      match rest with
      | [] =>
        -- `if i == len(self.seismic_model) - 1: continue` — last iteration.
        ([(x_length, thickness)], [(cur_angle1, time)])
      | next :: _ =>
        let new_angle := count_angle cur_angle1 l.speed next.speed
        if new_angle = -2 then
          -- `if cur_angle == -2: break`
          ([(x_length, thickness)], [(cur_angle1, time)])
        else
          let res := trace_loop incid_angle source_depth rest new_angle true
          ((x_length, thickness) :: res.1, (cur_angle1, time) :: res.2)

/-- Embedding of `RayTracing.calculate_ray_tracing_values`: the loop starts
with `cur_angle = 0` and `existing_counter = 0`. -/
noncomputable def calculate_ray_tracing_values
    (seismic_model : List Layer) (incid_angle : ℝ) (source_depth : ℚ) :
    List (ℝ × ℝ) × List (ℝ × ℝ) :=
  trace_loop incid_angle source_depth seismic_model 0 false

/-- Cumulative sums as built by the loop of `RayTracing.create_coordinates`:
the list starts at `start` and each contribution is added to the previous
element (`x.append(layers_values[i][0] + x[i])`). -/
def accumulate (start : ℝ) : List ℝ → List ℝ
  | [] => [start]
  | a :: rest => start :: accumulate (a + start) rest

/-- Embedding of `RayTracing.create_coordinates`: from the list of
`(x_length, thickness)` pairs build the `x` list (starting at `0`) and the
`y` list (starting at `source_depth`), each accumulated cumulatively. -/
def create_coordinates (source_depth : ℝ) (layers_values : List (ℝ × ℝ)) :
    List ℝ × List ℝ :=
  (accumulate 0 (layers_values.map Prod.fst),
   accumulate source_depth (layers_values.map Prod.snd))

/-- The condition under which the loop of `calculate_ray_tracing_values`
never breaks while traversing the given layers with the given entry angle:
at every boundary the computed refraction angle differs from the sentinel
value `-2` (so neither a critical angle nor an exact `-2`-degree refraction
occurs). -/
def no_stop : List Layer → ℝ → Prop
  | [], _ => True
  | [_], _ => True
  | l :: next :: rest, cur_angle =>
    count_angle cur_angle l.speed next.speed ≠ -2 ∧
      no_stop (next :: rest) (count_angle cur_angle l.speed next.speed)

/-- The thicknesses the trace attributes to the traversed layers, in order:
the source layer (the first layer whose `range(top, bottom)` contains the
source depth) contributes `|bottom - source_depth|`, every later layer its
full `|bottom - top|`. -/
def expected_thicknesses (source_depth : ℚ) (model : List Layer) : List ℝ :=
  match model.drop (model.findIdx (is_layer_exist_source source_depth)) with
  | [] => []
  | l :: rest =>
    get_thickness (l.bottom : ℝ) (source_depth : ℝ) ::
      rest.map fun l2 => get_thickness (l2.bottom : ℝ) (l2.top : ℝ)

/-! ### The validation layer

The validation methods inspect the runtime types of the caller-supplied
values, so for them the input is modelled as tagged python values: integers,
floats (every python float value is a rational number) and a non-numeric
representative. -/

/-- A caller-supplied python value as the validation code distinguishes them. -/
inductive Val where
  | vInt : ℤ → Val
  | vFloat : ℚ → Val
  | vStr : String → Val
deriving DecidableEq

/-- Python's `type(x) is int`. -/
def typeIsInt : Val → Bool
  | .vInt _ => true
  | _ => false

/-- Embedding of `RayTracing.is_layer_data_count_correct`: every layer must
have exactly 3 entries. -/
def is_layer_data_count_correct (seismic_model : List (List Val)) : Bool :=
  seismic_model.all fun layer => layer.length == 3

/-- The layer loop of `RayTracing.is_input_data_integer_or_float`.  In python
the test `type(layer[i]) is int or float` parses as
`(type(layer[i]) is int) or float`, and the class object `float` is truthy,
so the per-field test never takes its `return False` branch; the loop can
only raise `IndexError` (modelled as `none`) when a layer has fewer than 3
entries.  The always-true `|| true` keeps the python shape visible. -/
def layerNumericScan : List (List Val) → Option Bool
  | [] => some true
  | layer :: rest =>
    match layer[0]?, layer[1]?, layer[2]? with
    | some v0, some v1, some v2 =>
      if (typeIsInt v0 || true) && (typeIsInt v1 || true) && (typeIsInt v2 || true) then
        layerNumericScan rest
      else some false
    | _, _, _ => none

/-- Embedding of `RayTracing.is_input_data_integer_or_float`.  After the layer
loop, python runs `if type(self.incid_angle) is not int or float: return
False` — again `(… is not int) or float`, always truthy — so whenever the
method does not raise it returns `False`. -/
def is_input_data_integer_or_float (seismic_model : List (List Val))
    (incid_angle source_depth : Val) : Option Bool :=
  match layerNumericScan seismic_model with
  | none => none
  | some false => some false
  | some true =>
    if !typeIsInt incid_angle || true then some false
    else if !typeIsInt source_depth || true then some false
    else some true

/-- Python's `layer[2] > 0`: comparing a non-numeric value against `0` raises
`TypeError` (modelled as `none`). -/
def valGtZero : Val → Option Bool
  | .vInt n => some (decide (0 < n))
  | .vFloat q => some (decide (0 < q))
  | .vStr _ => none

/-- Embedding of `RayTracing.is_speed_data_correct`: every `layer[2]` must
compare greater than zero. -/
def is_speed_data_correct : List (List Val) → Option Bool
  | [] => some true
  | layer :: rest =>
    match layer[2]? with
    | none => none
    | some v =>
      match valGtZero v with
      | none => none
      | some true => is_speed_data_correct rest
      | some false => some false

/-- Python's `d in range(a, b)`.  `range` itself raises `TypeError` unless
both endpoints are integers (modelled as `none`).  Membership of a float is
decided by equality against the integers of the range, so a float is a member
exactly when its value is an integer in `[a, b)`; a non-numeric value is
simply not a member. -/
def valInIntRange (d a b : Val) : Option Bool :=
  match a, b with
  | .vInt a0, .vInt b0 =>
    some (match d with
      | .vInt n => decide (a0 ≤ n ∧ n < b0)
      | .vFloat q => decide (q.den = 1 ∧ a0 ≤ q.num ∧ q.num < b0)
      | .vStr _ => false)
  | _, _ => none

/-- Embedding of `RayTracing.is_source_occur_in_seismic_model`: the source
depth must be a member of `range(layer[0], layer[1])` for some layer. -/
def is_source_occur_in_seismic_model : List (List Val) → Val → Option Bool
  | [], _ => some false
  | layer :: rest, d =>
    match layer[0]?, layer[1]? with
    | some a, some b =>
      match valInIntRange d a b with
      | none => none
      | some true => some true
      | some false => is_source_occur_in_seismic_model rest d
    | _, _ => none

/-- Outcome of the validate-then-trace entry point: an error message, a trace
result (the `(layers_values, label_values)` pair together with the assembled
coordinates), or an uncaught exception. -/
inductive Outcome where
  | err : String → Outcome
  | traced : (List (ℝ × ℝ) × List (ℝ × ℝ)) × (List ℝ × List ℝ) → Outcome
  | crash : Outcome

/-- A numeric python value as a rational. -/
def valToRat : Val → Option ℚ
  | .vInt n => some (n : ℚ)
  | .vFloat q => some q
  | .vStr _ => none

/-- A python value usable as a `range` endpoint. -/
def valToInt : Val → Option ℤ
  | .vInt n => some n
  | _ => none

/-- A raw 3-entry layer as the trace consumes it: integer boundaries (from
`range`) and a numeric velocity; anything else makes the trace raise. -/
def layerOfVals (layer : List Val) : Option Layer :=
  match layer[0]?, layer[1]?, layer[2]? with
  | some t, some b, some v =>
    match valToInt t, valToInt b, valToRat v with
    | some t0, some b0, some v0 => some ⟨t0, b0, (v0 : ℝ)⟩
    | _, _, _ => none
  | _, _, _ => none

/-- Embedding of `RayTracing.trace_ray` on raw values: run the trace and
assemble the coordinates (the plotting calls are external collaborators and
carry no data).  Raises (crashes) when a value the trace arithmetic touches
is not of the numeric shape the computation needs. -/
noncomputable def trace_ray (seismic_model : List (List Val))
    (incid_angle source_depth : Val) : Outcome :=
  match seismic_model.mapM layerOfVals, valToRat incid_angle, valToRat source_depth with
  | some model, some a, some d =>
    Outcome.traced (calculate_ray_tracing_values model (a : ℝ) d,
      create_coordinates (d : ℝ) (calculate_ray_tracing_values model (a : ℝ) d).1)
  | _, _, _ => Outcome.crash

/-- Embedding of `RayTracing.check_input_data_correctness`: the four checks in
source order, each returning its message on failure, tracing only when all
four pass. -/
noncomputable def check_input_data_correctness (seismic_model : List (List Val))
    (incid_angle source_depth : Val) : Outcome :=
  if !is_layer_data_count_correct seismic_model then
    Outcome.err "Layer data is incorrect"
  else match is_input_data_integer_or_float seismic_model incid_angle source_depth with
  | none => Outcome.crash
  | some false => Outcome.err "Input data is not integer or float"
  | some true =>
    match is_speed_data_correct seismic_model with
    | none => Outcome.crash
    | some false => Outcome.err "Speed value is not correct"
    | some true =>
      match is_source_occur_in_seismic_model seismic_model source_depth with
      | none => Outcome.crash
      | some false => Outcome.err "Source dont occur in seismic model."
      | some true => trace_ray seismic_model incid_angle source_depth

/-! ### Basic facts about the angle computation -/

lemma radians_degrees (x : ℝ) : radians (degrees x) = x := by
  unfold radians degrees
  have hpi : Real.pi ≠ 0 := Real.pi_ne_zero
  field_simp

lemma count_angle_of_abs_le {cur_angle v1 v2 : ℝ}
    (h : |Real.sin (radians cur_angle) * (v2 / v1)| ≤ 1) :
    count_angle cur_angle v1 v2 =
      degrees (Real.arcsin (Real.sin (radians cur_angle) * (v2 / v1))) := by
  unfold count_angle
  rw [if_neg (not_lt.mpr h)]

lemma count_angle_of_abs_gt {cur_angle v1 v2 : ℝ}
    (h : 1 < |Real.sin (radians cur_angle) * (v2 / v1)|) :
    count_angle cur_angle v1 v2 = -2 := by
  unfold count_angle
  rw [if_pos h]

/-- When no critical angle occurs, the sine of the returned refraction angle is
exactly `sin_beta`. -/
lemma sin_radians_count_angle {cur_angle v1 v2 : ℝ}
    (h : |Real.sin (radians cur_angle) * (v2 / v1)| ≤ 1) :
    Real.sin (radians (count_angle cur_angle v1 v2)) =
      Real.sin (radians cur_angle) * (v2 / v1) := by
  rw [count_angle_of_abs_le h, radians_degrees]
  have habs := abs_le.mp h
  exact Real.sin_arcsin habs.1 habs.2

/-! ### Unfolding lemmas for the trace loop -/

lemma trace_loop_nil (incid_angle : ℝ) (source_depth : ℚ) (cur_angle : ℝ) (found : Bool) :
    trace_loop incid_angle source_depth [] cur_angle found = ([], []) := by
  rfl

/-- Before the source layer has been found, a layer that does not contain the
source is skipped outright (python's `continue`). -/
lemma trace_loop_skip {source_depth : ℚ} {l : Layer} (incid_angle : ℝ)
    (rest : List Layer) (cur_angle : ℝ)
    (hexist : is_layer_exist_source source_depth l = false) :
    trace_loop incid_angle source_depth (l :: rest) cur_angle false =
      trace_loop incid_angle source_depth rest cur_angle false := by
  rw [trace_loop]
  simp [hexist]

/-- Processing the last layer of the model: one pair is appended and the loop
ends (python's `if i == len(self.seismic_model) - 1: continue`). -/
lemma trace_loop_cons_nil {source_depth : ℚ} {l : Layer} {found : Bool}
    (incid_angle : ℝ) (cur_angle : ℝ)
    (hproc : (!is_layer_exist_source source_depth l && !found) = false) :
    trace_loop incid_angle source_depth [l] cur_angle found =
      (let cur_angle1 := if is_layer_exist_source source_depth l && !found
          then incid_angle else cur_angle
       let thickness := if is_layer_exist_source source_depth l && !found
          then get_thickness (l.bottom : ℝ) (source_depth : ℝ)
          else get_thickness (l.bottom : ℝ) (l.top : ℝ)
       ([(find_x_length cur_angle1 thickness, thickness)],
        [(cur_angle1, count_ray_duration
            (find_ray_length thickness (find_x_length cur_angle1 thickness)) l.speed)])) := by
  rw [trace_loop]
  simp only [hproc, Bool.false_eq_true, if_false]

/-- Processing a non-final layer whose refraction angle comes out as the
sentinel `-2`: the loop breaks right after appending the current layer's
values. -/
lemma trace_loop_cons_stop {source_depth : ℚ} {l next : Layer} {found : Bool}
    (incid_angle : ℝ) (rest : List Layer) (cur_angle : ℝ)
    (hproc : (!is_layer_exist_source source_depth l && !found) = false)
    (hstop : count_angle
        (if is_layer_exist_source source_depth l && !found then incid_angle else cur_angle)
        l.speed next.speed = -2) :
    trace_loop incid_angle source_depth (l :: next :: rest) cur_angle found =
      (let cur_angle1 := if is_layer_exist_source source_depth l && !found
          then incid_angle else cur_angle
       let thickness := if is_layer_exist_source source_depth l && !found
          then get_thickness (l.bottom : ℝ) (source_depth : ℝ)
          else get_thickness (l.bottom : ℝ) (l.top : ℝ)
       ([(find_x_length cur_angle1 thickness, thickness)],
        [(cur_angle1, count_ray_duration
            (find_ray_length thickness (find_x_length cur_angle1 thickness)) l.speed)])) := by
  rw [trace_loop]
  simp only [hproc, Bool.false_eq_true, if_false, hstop, if_true]

/-- Processing a non-final layer whose refraction angle is not the sentinel:
the current layer's pair is consed onto the trace of the remaining layers,
continued with the refracted angle and the source marked as found. -/
lemma trace_loop_cons_go {source_depth : ℚ} {l next : Layer} {found : Bool}
    (incid_angle : ℝ) (rest : List Layer) (cur_angle : ℝ)
    (hproc : (!is_layer_exist_source source_depth l && !found) = false)
    (hgo : count_angle
        (if is_layer_exist_source source_depth l && !found then incid_angle else cur_angle)
        l.speed next.speed ≠ -2) :
    trace_loop incid_angle source_depth (l :: next :: rest) cur_angle found =
      (let cur_angle1 := if is_layer_exist_source source_depth l && !found
          then incid_angle else cur_angle
       let thickness := if is_layer_exist_source source_depth l && !found
          then get_thickness (l.bottom : ℝ) (source_depth : ℝ)
          else get_thickness (l.bottom : ℝ) (l.top : ℝ)
       let res := trace_loop incid_angle source_depth (next :: rest)
          (count_angle cur_angle1 l.speed next.speed) true
       ((find_x_length cur_angle1 thickness, thickness) :: res.1,
        (cur_angle1, count_ray_duration
            (find_ray_length thickness (find_x_length cur_angle1 thickness)) l.speed) :: res.2)) := by
  rw [trace_loop]
  simp only [hproc, Bool.false_eq_true, if_false, hgo, if_true]

/-- C1.  For any two consecutive traversed layers with velocities `v1`, `v2`,
when the trace computes a refraction angle `θ2 = count_angle θ1 v1 v2` from
incidence angle `θ1` (no critical angle at that boundary, i.e.
`|sin θ1 * v2 / v1| ≤ 1`), the angles satisfy Snell's law:
`sin θ1 / v1 = sin θ2 / v2` (angles in degrees, sine taken of the radian
measure as the source does). -/
theorem snell_law_consistency (cur_angle v1 v2 : ℝ) (hv1 : 0 < v1) (hv2 : 0 < v2)
    (h : |Real.sin (radians cur_angle) * (v2 / v1)| ≤ 1) :
    Real.sin (radians cur_angle) / v1 =
      Real.sin (radians (count_angle cur_angle v1 v2)) / v2 := by
  rw [sin_radians_count_angle h]
  field_simp
  ring

/-- Witness for C1 at the concrete boundary `θ1 = 0`, `v1 = v2 = 1`. -/
theorem snell_law_consistency_witness :
    0 < (1 : ℝ) ∧ |Real.sin (radians 0) * ((1 : ℝ) / 1)| ≤ 1 ∧
      Real.sin (radians 0) / 1 = Real.sin (radians (count_angle 0 1 1)) / 1 := by
  have h0 : radians 0 = 0 := by unfold radians; ring
  have h : |Real.sin (radians 0) * ((1 : ℝ) / 1)| ≤ 1 := by
    rw [h0]; simp
  exact ⟨one_pos, h, snell_law_consistency 0 1 1 one_pos one_pos h⟩

/-! ### Critical-angle and sentinel termination -/

/-- C2.  If at a layer boundary `|sin θ1 * v2 / v1| > 1` (critical angle),
the trace emits the vertex data and label for the layer just completed and
emits nothing further: the remaining output is exactly the one pair for the
current layer, whatever layers remain below. -/
theorem critical_angle_termination (incid_angle : ℝ) (source_depth : ℚ)
    (l next : Layer) (rest : List Layer) (cur_angle : ℝ) (found : Bool)
    (hproc : (!is_layer_exist_source source_depth l && !found) = false)
    (hcrit : 1 < |Real.sin (radians
        (if is_layer_exist_source source_depth l && !found then incid_angle else cur_angle)) *
        (next.speed / l.speed)|) :
    trace_loop incid_angle source_depth (l :: next :: rest) cur_angle found =
      (let cur_angle1 := if is_layer_exist_source source_depth l && !found
          then incid_angle else cur_angle
       let thickness := if is_layer_exist_source source_depth l && !found
          then get_thickness (l.bottom : ℝ) (source_depth : ℝ)
          else get_thickness (l.bottom : ℝ) (l.top : ℝ)
       ([(find_x_length cur_angle1 thickness, thickness)],
        [(cur_angle1, count_ray_duration
            (find_ray_length thickness (find_x_length cur_angle1 thickness)) l.speed)])) :=
  trace_loop_cons_stop incid_angle rest cur_angle hproc (count_angle_of_abs_gt hcrit)

/-- Witness for C2: a boundary from velocity `1` to velocity `1000` at a `30`
degree angle has `sin beta = 500 > 1`, and the trace from that configuration
returns exactly one vertex pair. -/
theorem critical_angle_termination_witness :
    (trace_loop 30 0 [⟨0, 100, 1⟩, ⟨100, 200, 1000⟩] 30 true).1.length = 1 := by
  have hrad : radians 30 = Real.pi / 6 := by unfold radians; ring
  have hcrit : 1 < |Real.sin (radians
      (if is_layer_exist_source 0 ⟨0, 100, 1⟩ && !true then (30 : ℝ) else 30)) *
      ((Layer.mk 100 200 1000).speed / (Layer.mk 0 100 1).speed)| := by
    rw [ite_self, hrad, Real.sin_pi_div_six]
    norm_num
  rw [critical_angle_termination 30 0 ⟨0, 100, 1⟩ ⟨100, 200, 1000⟩ [] 30 true
    (by simp) hcrit]
  simp

/-- The sentinel equality needed below: the refraction computation at a
boundary with equal velocities maps an incidence angle of `-2` degrees back to
exactly `-2` degrees. -/
lemma degrees_arcsin_sin_neg_two :
    degrees (Real.arcsin (Real.sin (radians (-2)) * ((1 : ℝ) / 1))) = -2 := by
  have hrad : radians (-2) = -(Real.pi / 90) := by unfold radians; ring
  have h1 : -(Real.pi / 2) ≤ -(Real.pi / 90) := by
    have := Real.pi_pos; linarith
  have h2 : -(Real.pi / 90) ≤ Real.pi / 2 := by
    have := Real.pi_pos; linarith
  rw [div_one, mul_one, hrad, Real.arcsin_sin h1 h2]
  unfold degrees
  have hpi : Real.pi ≠ 0 := Real.pi_ne_zero
  field_simp
  ring

/-- The sine magnitude at that boundary does not exceed one: no critical
angle occurs there. -/
lemma abs_sin_neg_two_le_one : |Real.sin (radians (-2)) * ((1 : ℝ) / 1)| ≤ 1 := by
  rw [div_one, mul_one]
  exact Real.abs_sin_le_one _

/-- The composite fact shared by the sentinel results: with equal velocities
`1`, an incidence angle of exactly `-2` degrees makes `count_angle` return
`-2` through its non-critical branch. -/
lemma count_angle_neg_two_self : count_angle (-2) 1 1 = -2 := by
  rw [count_angle_of_abs_le abs_sin_neg_two_le_one]
  exact degrees_arcsin_sin_neg_two

/-- C10.  If the Snell's-law refraction angle computed at some boundary is
exactly `-2` degrees — no critical angle, `|sin beta| ≤ 1`, yet
`degrees (arcsin (sin beta)) = -2` — the trace stops at that boundary as
though total internal reflection had occurred: the remaining output is
exactly the one pair for the current layer, and no vertices are emitted for
the remaining layers. -/
theorem minus_two_sentinel_stops (incid_angle : ℝ) (source_depth : ℚ)
    (l next : Layer) (rest : List Layer) (cur_angle : ℝ) (found : Bool)
    (hproc : (!is_layer_exist_source source_depth l && !found) = false)
    (hnocrit : |Real.sin (radians
        (if is_layer_exist_source source_depth l && !found then incid_angle else cur_angle)) *
        (next.speed / l.speed)| ≤ 1)
    (hexact : degrees (Real.arcsin (Real.sin (radians
        (if is_layer_exist_source source_depth l && !found then incid_angle else cur_angle)) *
        (next.speed / l.speed))) = -2) :
    trace_loop incid_angle source_depth (l :: next :: rest) cur_angle found =
      (let cur_angle1 := if is_layer_exist_source source_depth l && !found
          then incid_angle else cur_angle
       let thickness := if is_layer_exist_source source_depth l && !found
          then get_thickness (l.bottom : ℝ) (source_depth : ℝ)
          else get_thickness (l.bottom : ℝ) (l.top : ℝ)
       ([(find_x_length cur_angle1 thickness, thickness)],
        [(cur_angle1, count_ray_duration
            (find_ray_length thickness (find_x_length cur_angle1 thickness)) l.speed)])) := by
  refine trace_loop_cons_stop incid_angle rest cur_angle hproc ?_
  rw [count_angle_of_abs_le hnocrit]
  exact hexact

/-- Witness for C10: two layers of equal velocity `1` and an incidence angle
of `-2` degrees; the refraction angle is genuinely `-2` degrees, `|sin beta|`
is below one, and the trace nevertheless emits only the current layer's pair
although a further layer remains. -/
theorem minus_two_sentinel_stops_witness :
    (trace_loop (-2) 0 [⟨0, 100, 1⟩, ⟨100, 200, 1⟩] (-2) true).1.length = 1 := by
  have hite : (if is_layer_exist_source 0 ⟨0, 100, 1⟩ && !true then (-2 : ℝ) else -2) = -2 :=
    ite_self _
  have hnocrit : |Real.sin (radians
      (if is_layer_exist_source 0 ⟨0, 100, 1⟩ && !true then (-2 : ℝ) else -2)) *
      ((Layer.mk 100 200 1).speed / (Layer.mk 0 100 1).speed)| ≤ 1 := by
    rw [hite]; exact abs_sin_neg_two_le_one
  have hexact : degrees (Real.arcsin (Real.sin (radians
      (if is_layer_exist_source 0 ⟨0, 100, 1⟩ && !true then (-2 : ℝ) else -2)) *
      ((Layer.mk 100 200 1).speed / (Layer.mk 0 100 1).speed))) = -2 := by
    rw [hite]; exact degrees_arcsin_sin_neg_two
  rw [minus_two_sentinel_stops (-2) 0 ⟨0, 100, 1⟩ ⟨100, 200, 1⟩ [] (-2) true
    (by simp) hnocrit hexact]
  simp

/-! ### Facts about coordinate accumulation -/

lemma accumulate_length (s : ℝ) (as : List ℝ) :
    (accumulate s as).length = as.length + 1 := by
  induction as generalizing s with
  | nil => rfl
  | cons a as ih => simp [accumulate, ih]

lemma accumulate_head (s : ℝ) (as : List ℝ) : (accumulate s as).head? = some s := by
  cases as <;> rfl

lemma accumulate_getD_zero (s : ℝ) (as : List ℝ) : (accumulate s as).getD 0 0 = s := by
  cases as <;> rfl

/-- Each element of the accumulated list is the previous one plus the
corresponding contribution. -/
lemma accumulate_getD_succ (as : List ℝ) (s : ℝ) (i : ℕ) (hi : i < as.length) :
    (accumulate s as).getD (i + 1) 0 =
      (accumulate s as).getD i 0 + as.getD i 0 := by
  induction as generalizing s i with
  | nil => simp at hi
  | cons a as ih =>
    cases i with
    | zero =>
      show (accumulate (a + s) as).getD 0 0 = s + a
      rw [accumulate_getD_zero]
      ring
    | succ j =>
      have hj : j < as.length := by simpa using hi
      show (accumulate (a + s) as).getD (j + 1) 0 = (accumulate (a + s) as).getD j 0 + _
      exact ih (a + s) j hj

/-- Accumulating non-negative contributions yields a non-decreasing list. -/
lemma chain_accumulate (as : List ℝ) (s : ℝ) (h : ∀ a ∈ as, 0 ≤ a) :
    List.Chain' (fun x y => x ≤ y) (accumulate s as) := by
  induction as generalizing s with
  | nil => simp [accumulate]
  | cons a as ih =>
    rw [accumulate, List.chain'_cons']
    constructor
    · intro y hy
      rw [accumulate_head] at hy
      have ha : 0 ≤ a := h a (List.mem_cons_self a as)
      cases hy
      linarith
    · exact ih (a + s) fun b hb => h b (List.mem_cons_of_mem a hb)

/-- Accumulating all-zero contributions from `s` stays at `s` forever. -/
lemma accumulate_const (as : List ℝ) (s : ℝ) (h : ∀ a ∈ as, a = 0) :
    ∀ x ∈ accumulate s as, x = s := by
  induction as generalizing s with
  | nil =>
    intro x hx
    rw [accumulate, List.mem_singleton] at hx
    exact hx
  | cons a as ih =>
    intro x hx
    rw [accumulate, List.mem_cons] at hx
    rcases hx with hx | hx
    · exact hx
    · have ha : a = 0 := h a (List.mem_cons_self a as)
      have := ih (a + s) (fun b hb => h b (List.mem_cons_of_mem a hb)) x hx
      rw [this, ha, zero_add]

/-! ### Structural facts about the trace loop -/

/-- The two output lists of the loop always have the same length: every
iteration appends to both or to neither. -/
lemma trace_lengths_eq (incid_angle : ℝ) (source_depth : ℚ) :
    ∀ (ls : List Layer) (cur_angle : ℝ) (found : Bool),
      (trace_loop incid_angle source_depth ls cur_angle found).1.length =
        (trace_loop incid_angle source_depth ls cur_angle found).2.length := by
  intro ls
  induction ls with
  | nil => intro θ f; rfl
  | cons l rest ih =>
    intro θ f
    by_cases hskip : (!is_layer_exist_source source_depth l && !f) = true
    · have hboth : is_layer_exist_source source_depth l = false ∧ f = false := by
        simpa using hskip
      obtain ⟨hP, hf⟩ := hboth
      subst hf
      rw [trace_loop_skip _ _ _ hP]
      exact ih θ false
    · have hproc := Bool.eq_false_iff.mpr hskip
      cases rest with
      | nil =>
        rw [trace_loop_cons_nil _ _ hproc]
        simp
      | cons next tail =>
        by_cases hstop : count_angle
            (if is_layer_exist_source source_depth l && !f then incid_angle else θ)
            l.speed next.speed = -2
        · rw [trace_loop_cons_stop _ _ _ hproc hstop]
          simp
        · rw [trace_loop_cons_go _ _ _ hproc hstop]
          simp only [List.length_cons]
          rw [ih]

/-- Once the source layer has been found, the loop emits at most one pair per
remaining layer. -/
lemma trace_found_length_le (incid_angle : ℝ) (source_depth : ℚ) :
    ∀ (ls : List Layer) (cur_angle : ℝ),
      (trace_loop incid_angle source_depth ls cur_angle true).1.length ≤ ls.length := by
  intro ls
  induction ls with
  | nil => intro θ; simp [trace_loop_nil]
  | cons l rest ih =>
    intro θ
    have hproc : (!is_layer_exist_source source_depth l && !true) = false := by simp
    cases rest with
    | nil =>
      rw [trace_loop_cons_nil _ _ hproc]
      simp
    | cons next tail =>
      by_cases hstop : count_angle
          (if is_layer_exist_source source_depth l && !true then incid_angle else θ)
          l.speed next.speed = -2
      · rw [trace_loop_cons_stop _ _ _ hproc hstop]
        simp
      · rw [trace_loop_cons_go _ _ _ hproc hstop]
        simp only [List.length_cons, Nat.add_le_add_iff_right]
        exact ih _

/-- Once the source layer has been found, if no boundary along the remaining
layers computes the sentinel `-2`, the loop emits exactly one pair per
remaining layer. -/
lemma trace_found_length_eq (incid_angle : ℝ) (source_depth : ℚ) :
    ∀ (ls : List Layer) (cur_angle : ℝ), no_stop ls cur_angle →
      (trace_loop incid_angle source_depth ls cur_angle true).1.length = ls.length := by
  intro ls
  induction ls with
  | nil => intro θ _; rfl
  | cons l rest ih =>
    intro θ hns
    have hproc : (!is_layer_exist_source source_depth l && !true) = false := by simp
    cases rest with
    | nil =>
      rw [trace_loop_cons_nil _ _ hproc]
      simp
    | cons next tail =>
      rw [no_stop] at hns
      have hgo : count_angle
          (if is_layer_exist_source source_depth l && !true then incid_angle else θ)
          l.speed next.speed ≠ -2 := by
        simpa using hns.1
      rw [trace_loop_cons_go _ _ _ hproc hgo]
      simp only [List.length_cons, Nat.add_right_cancel_iff]
      have harg : count_angle
          (if is_layer_exist_source source_depth l && !true then incid_angle else θ)
          l.speed next.speed = count_angle θ l.speed next.speed := by
        simp
      rw [harg]
      exact ih _ hns.2

/-- Over the whole loop — source layer not yet found — at most one pair is
emitted per layer at or below the first source-containing layer. -/
lemma trace_length_le_sub (incid_angle : ℝ) (source_depth : ℚ) :
    ∀ (ls : List Layer) (cur_angle : ℝ),
      (trace_loop incid_angle source_depth ls cur_angle false).1.length ≤
        ls.length - ls.findIdx (is_layer_exist_source source_depth) := by
  intro ls
  induction ls with
  | nil => intro θ; simp [trace_loop_nil]
  | cons l rest ih =>
    intro θ
    by_cases hP : is_layer_exist_source source_depth l = true
    · have hproc : (!is_layer_exist_source source_depth l && !false) = false := by simp [hP]
      have hidx : (l :: rest).findIdx (is_layer_exist_source source_depth) = 0 := by
        rw [List.findIdx_cons, hP, cond_true]
      rw [hidx, Nat.sub_zero]
      cases rest with
      | nil =>
        rw [trace_loop_cons_nil _ _ hproc]
        simp
      | cons next tail =>
        by_cases hstop : count_angle
            (if is_layer_exist_source source_depth l && !false then incid_angle else θ)
            l.speed next.speed = -2
        · rw [trace_loop_cons_stop _ _ _ hproc hstop]
          simp
        · rw [trace_loop_cons_go _ _ _ hproc hstop]
          simp only [List.length_cons, Nat.add_le_add_iff_right]
          exact trace_found_length_le incid_angle source_depth _ _
    · have hP' := Bool.eq_false_iff.mpr hP
      rw [trace_loop_skip _ _ _ hP']
      have hidx : (l :: rest).findIdx (is_layer_exist_source source_depth) =
          rest.findIdx (is_layer_exist_source source_depth) + 1 := by
        rw [List.findIdx_cons, hP', cond_false]
      rw [hidx, List.length_cons, Nat.succ_sub_succ]
      exact ih θ

/-- Over the whole loop, when some layer contains the source and no traversed
boundary computes the sentinel `-2`, exactly one pair is emitted for the
source layer and each layer below it. -/
lemma trace_length_eq_sub (incid_angle : ℝ) (source_depth : ℚ) :
    ∀ (ls : List Layer) (cur_angle : ℝ),
      (∃ l ∈ ls, is_layer_exist_source source_depth l = true) →
      no_stop (ls.drop (ls.findIdx (is_layer_exist_source source_depth))) incid_angle →
      (trace_loop incid_angle source_depth ls cur_angle false).1.length =
        ls.length - ls.findIdx (is_layer_exist_source source_depth) := by
  intro ls
  induction ls with
  | nil =>
    intro θ hex _
    simp at hex
  | cons l rest ih =>
    intro θ hex hns
    by_cases hP : is_layer_exist_source source_depth l = true
    · have hproc : (!is_layer_exist_source source_depth l && !false) = false := by simp [hP]
      have hidx : (l :: rest).findIdx (is_layer_exist_source source_depth) = 0 := by
        rw [List.findIdx_cons, hP, cond_true]
      rw [hidx, List.drop_zero] at hns
      rw [hidx, Nat.sub_zero]
      cases rest with
      | nil =>
        rw [trace_loop_cons_nil _ _ hproc]
        simp
      | cons next tail =>
        rw [no_stop] at hns
        have hgo : count_angle
            (if is_layer_exist_source source_depth l && !false then incid_angle else θ)
            l.speed next.speed ≠ -2 := by
          simpa [hP] using hns.1
        rw [trace_loop_cons_go _ _ _ hproc hgo]
        simp only [List.length_cons, Nat.add_right_cancel_iff]
        have harg : count_angle
            (if is_layer_exist_source source_depth l && !false then incid_angle else θ)
            l.speed next.speed = count_angle incid_angle l.speed next.speed := by
          simp [hP]
        rw [harg]
        exact trace_found_length_eq incid_angle source_depth _ _ hns.2
    · have hP' := Bool.eq_false_iff.mpr hP
      have hex' : ∃ l2 ∈ rest, is_layer_exist_source source_depth l2 = true := by
        rcases hex with ⟨l2, hmem, hl2⟩
        rcases List.mem_cons.mp hmem with h | h
        · exact absurd (h ▸ hl2) hP
        · exact ⟨l2, h, hl2⟩
      have hidx : (l :: rest).findIdx (is_layer_exist_source source_depth) =
          rest.findIdx (is_layer_exist_source source_depth) + 1 := by
        rw [List.findIdx_cons, hP', cond_false]
      rw [hidx, List.drop_succ_cons] at hns
      rw [trace_loop_skip _ _ _ hP', hidx, List.length_cons, Nat.succ_sub_succ]
      exact ih θ hex' hns

/-! ### Thickness bookkeeping -/

lemma get_thickness_nonneg (b t : ℝ) : 0 ≤ get_thickness b t := abs_nonneg _

lemma expected_thicknesses_skip {source_depth : ℚ} {l : Layer} (rest : List Layer)
    (hP : is_layer_exist_source source_depth l = false) :
    expected_thicknesses source_depth (l :: rest) = expected_thicknesses source_depth rest := by
  rw [expected_thicknesses, expected_thicknesses, List.findIdx_cons, hP, cond_false,
    List.drop_succ_cons]

lemma expected_thicknesses_src {source_depth : ℚ} {l : Layer} (rest : List Layer)
    (hP : is_layer_exist_source source_depth l = true) :
    expected_thicknesses source_depth (l :: rest) =
      get_thickness (l.bottom : ℝ) (source_depth : ℝ) ::
        rest.map fun l2 => get_thickness (l2.bottom : ℝ) (l2.top : ℝ) := by
  rw [expected_thicknesses, List.findIdx_cons, hP, cond_true, List.drop_zero]

lemma expected_thicknesses_nonneg (source_depth : ℚ) (ls : List Layer) :
    ∀ x ∈ expected_thicknesses source_depth ls, 0 ≤ x := by
  intro x hx
  rw [expected_thicknesses] at hx
  rcases hdrop : ls.drop (ls.findIdx (is_layer_exist_source source_depth)) with _ | ⟨l, rest⟩
  · rw [hdrop] at hx
    simp at hx
  · rw [hdrop] at hx
    rcases List.mem_cons.mp hx with h | h
    · rw [h]; exact get_thickness_nonneg _ _
    · obtain ⟨l2, _, hl2⟩ := List.mem_map.mp h
      rw [← hl2]; exact get_thickness_nonneg _ _

/-- Once the source layer has been found, the thicknesses the loop emits are
an initial segment of the full per-layer thicknesses of the remaining
layers. -/
lemma trace_found_map_snd (incid_angle : ℝ) (source_depth : ℚ) :
    ∀ (ls : List Layer) (cur_angle : ℝ),
      ((trace_loop incid_angle source_depth ls cur_angle true).1.map Prod.snd) =
        (ls.map fun l => get_thickness (l.bottom : ℝ) (l.top : ℝ)).take
          (trace_loop incid_angle source_depth ls cur_angle true).1.length := by
  intro ls
  induction ls with
  | nil => intro θ; rfl
  | cons l rest ih =>
    intro θ
    have hproc : (!is_layer_exist_source source_depth l && !true) = false := by simp
    cases rest with
    | nil =>
      rw [trace_loop_cons_nil _ _ hproc]
      simp
    | cons next tail =>
      by_cases hstop : count_angle
          (if is_layer_exist_source source_depth l && !true then incid_angle else θ)
          l.speed next.speed = -2
      · rw [trace_loop_cons_stop _ _ _ hproc hstop]
        simp
      · rw [trace_loop_cons_go _ _ _ hproc hstop]
        simp only [List.map_cons, List.length_cons, List.take_succ_cons, List.cons.injEq]
        constructor
        · simp
        · exact ih _

/-- From the start of the loop, the emitted thicknesses are an initial
segment of the expected per-layer thicknesses (source layer shortened to the
span from the source depth to its bottom). -/
lemma trace_map_snd (incid_angle : ℝ) (source_depth : ℚ) :
    ∀ (ls : List Layer) (cur_angle : ℝ),
      ((trace_loop incid_angle source_depth ls cur_angle false).1.map Prod.snd) =
        (expected_thicknesses source_depth ls).take
          (trace_loop incid_angle source_depth ls cur_angle false).1.length := by
  intro ls
  induction ls with
  | nil => intro θ; rfl
  | cons l rest ih =>
    intro θ
    by_cases hP : is_layer_exist_source source_depth l = true
    · have hproc : (!is_layer_exist_source source_depth l && !false) = false := by simp [hP]
      rw [expected_thicknesses_src rest hP]
      cases rest with
      | nil =>
        rw [trace_loop_cons_nil _ _ hproc]
        simp [hP]
      | cons next tail =>
        by_cases hstop : count_angle
            (if is_layer_exist_source source_depth l && !false then incid_angle else θ)
            l.speed next.speed = -2
        · rw [trace_loop_cons_stop _ _ _ hproc hstop]
          simp [hP]
        · rw [trace_loop_cons_go _ _ _ hproc hstop]
          simp only [List.map_cons, List.length_cons, List.take_succ_cons, List.cons.injEq]
          constructor
          · simp [hP]
          · exact trace_found_map_snd incid_angle source_depth _ _
    · have hP' := Bool.eq_false_iff.mpr hP
      rw [trace_loop_skip _ _ _ hP', expected_thicknesses_skip rest hP']
      exact ih θ

/-- C9.  Consecutive emitted vertex depths differ by exactly the traversed
layer's thickness — `|bottom - top|`, or `|bottom - source_depth|` for the
source layer — as recorded by `expected_thicknesses`; every per-vertex depth
increment is non-negative; and the accumulated depth list is monotonically
non-decreasing from the source depth. -/
theorem monotonic_depth_accumulation (model : List Layer) (incid_angle : ℝ)
    (source_depth : ℚ) :
    ((calculate_ray_tracing_values model incid_angle source_depth).1.map Prod.snd) =
      (expected_thicknesses source_depth model).take
        (calculate_ray_tracing_values model incid_angle source_depth).1.length ∧
    (∀ p ∈ (calculate_ray_tracing_values model incid_angle source_depth).1, 0 ≤ p.2) ∧
    (∀ i < (calculate_ray_tracing_values model incid_angle source_depth).1.length,
      (create_coordinates (source_depth : ℝ)
          (calculate_ray_tracing_values model incid_angle source_depth).1).2.getD (i + 1) 0 =
        (create_coordinates (source_depth : ℝ)
          (calculate_ray_tracing_values model incid_angle source_depth).1).2.getD i 0 +
        ((calculate_ray_tracing_values model incid_angle source_depth).1.map
          Prod.snd).getD i 0) ∧
    (create_coordinates (source_depth : ℝ)
        (calculate_ray_tracing_values model incid_angle source_depth).1).2.head? =
      some (source_depth : ℝ) ∧
    List.Chain' (fun x y => x ≤ y)
      (create_coordinates (source_depth : ℝ)
        (calculate_ray_tracing_values model incid_angle source_depth).1).2 := by
  have hmap := trace_map_snd incid_angle source_depth model 0
  have hnn : ∀ p ∈ (calculate_ray_tracing_values model incid_angle source_depth).1,
      0 ≤ p.2 := by
    intro p hp
    have hmem : p.2 ∈ (calculate_ray_tracing_values model incid_angle source_depth).1.map
        Prod.snd := List.mem_map_of_mem Prod.snd hp
    rw [calculate_ray_tracing_values, hmap] at hmem
    exact expected_thicknesses_nonneg source_depth model p.2 (List.mem_of_mem_take hmem)
  have hmapnn : ∀ a ∈ (calculate_ray_tracing_values model incid_angle source_depth).1.map
      Prod.snd, 0 ≤ a := by
    intro a ha
    obtain ⟨p, hp, hpa⟩ := List.mem_map.mp ha
    rw [← hpa]
    exact hnn p hp
  refine ⟨hmap, hnn, ?_, ?_, ?_⟩
  · intro i hi
    rw [create_coordinates]
    exact accumulate_getD_succ _ _ i (by simpa using hi)
  · rw [create_coordinates]
    exact accumulate_head _ _
  · rw [create_coordinates]
    exact chain_accumulate _ _ hmapnn

/-! ### The zero-angle ray -/

lemma count_angle_zero (v1 v2 : ℝ) : count_angle 0 v1 v2 = 0 := by
  unfold count_angle
  have h0 : radians 0 = 0 := by unfold radians; ring
  rw [h0, Real.sin_zero, zero_mul]
  simp [Real.arcsin_zero, degrees]

lemma find_x_length_zero (thickness : ℝ) : find_x_length 0 thickness = 0 := by
  unfold find_x_length
  have h0 : radians 0 = 0 := by unfold radians; ring
  rw [h0, Real.tan_zero, zero_mul]

/-- At entry angle `0` no boundary ever computes the sentinel `-2`: the
refracted angle stays `0` whatever the velocity ratio. -/
lemma no_stop_zero : ∀ ls : List Layer, no_stop ls 0 := by
  intro ls
  induction ls with
  | nil => trivial
  | cons l rest ih =>
    cases rest with
    | nil => trivial
    | cons next tail =>
      rw [no_stop, count_angle_zero]
      exact ⟨by norm_num, ih⟩

/-- In the found phase at angle `0`, every emitted `x_length` and every
recorded angle is `0`. -/
lemma trace_found_zero_mem (incid_angle : ℝ) (source_depth : ℚ) :
    ∀ ls : List Layer,
      (∀ p ∈ (trace_loop incid_angle source_depth ls 0 true).1, p.1 = 0) ∧
      (∀ q ∈ (trace_loop incid_angle source_depth ls 0 true).2, q.1 = 0) := by
  intro ls
  induction ls with
  | nil =>
    constructor <;> intro p hp <;> simp [trace_loop_nil] at hp
  | cons l rest ih =>
    have hproc : (!is_layer_exist_source source_depth l && !true) = false := by simp
    cases rest with
    | nil =>
      rw [trace_loop_cons_nil _ _ hproc]
      constructor
      · intro p hp
        simp only [Bool.not_true, Bool.and_false, Bool.false_eq_true, if_false,
          List.mem_singleton] at hp
        rw [hp]
        exact find_x_length_zero _
      · intro q hq
        simp only [Bool.not_true, Bool.and_false, Bool.false_eq_true, if_false,
          List.mem_singleton] at hq
        rw [hq]
    | cons next tail =>
      have hgo : count_angle
          (if is_layer_exist_source source_depth l && !true then incid_angle else 0)
          l.speed next.speed ≠ -2 := by
        simp only [Bool.not_true, Bool.and_false, Bool.false_eq_true, if_false,
          count_angle_zero]
        norm_num
      rw [trace_loop_cons_go _ _ _ hproc hgo]
      simp only [Bool.not_true, Bool.and_false, Bool.false_eq_true, if_false,
        count_angle_zero]
      constructor
      · intro p hp
        rcases List.mem_cons.mp hp with h | h
        · rw [h]
          exact find_x_length_zero _
        · exact (ih).1 p h
      · intro q hq
        rcases List.mem_cons.mp hq with h | h
        · rw [h]
        · exact (ih).2 q h

/-- From the start of the loop with incidence angle `0`, every emitted
`x_length` and every recorded angle is `0`. -/
lemma trace_entry_zero_mem (source_depth : ℚ) :
    ∀ (ls : List Layer) (cur_angle : ℝ),
      (∀ p ∈ (trace_loop 0 source_depth ls cur_angle false).1, p.1 = 0) ∧
      (∀ q ∈ (trace_loop 0 source_depth ls cur_angle false).2, q.1 = 0) := by
  intro ls
  induction ls with
  | nil =>
    intro θ
    constructor <;> intro p hp <;> simp [trace_loop_nil] at hp
  | cons l rest ih =>
    intro θ
    by_cases hP : is_layer_exist_source source_depth l = true
    · have hproc : (!is_layer_exist_source source_depth l && !false) = false := by simp [hP]
      cases rest with
      | nil =>
        rw [trace_loop_cons_nil _ _ hproc]
        constructor
        · intro p hp
          simp only [hP, Bool.not_false, Bool.and_true, if_true, List.mem_singleton] at hp
          rw [hp]
          exact find_x_length_zero _
        · intro q hq
          simp only [hP, Bool.not_false, Bool.and_true, if_true, List.mem_singleton] at hq
          rw [hq]
      | cons next tail =>
        have hgo : count_angle
            (if is_layer_exist_source source_depth l && !false then 0 else θ)
            l.speed next.speed ≠ -2 := by
          simp only [hP, Bool.not_false, Bool.and_true, if_true, count_angle_zero]
          norm_num
        rw [trace_loop_cons_go _ _ _ hproc hgo]
        simp only [hP, Bool.not_false, Bool.and_true, if_true, count_angle_zero]
        constructor
        · intro p hp
          rcases List.mem_cons.mp hp with h | h
          · rw [h]
            exact find_x_length_zero _
          · exact (trace_found_zero_mem 0 source_depth _).1 p h
        · intro q hq
          rcases List.mem_cons.mp hq with h | h
          · rw [h]
          · exact (trace_found_zero_mem 0 source_depth _).2 q h
    · have hP' := Bool.eq_false_iff.mpr hP
      rw [trace_loop_skip _ _ _ hP']
      exact ih θ

/-- C8.  With incidence angle `0` the ray goes straight down: every emitted
`x_length` is `0`, every recorded per-layer angle is `0`, every x-coordinate
of every vertex is `0`, and (when some layer contains the source) the trace
traverses every layer from the source layer to the last one — no critical
angle is ever reached. -/
theorem zero_angle_straight_down (model : List Layer) (source_depth : ℚ) :
    (∀ p ∈ (calculate_ray_tracing_values model 0 source_depth).1, p.1 = 0) ∧
    (∀ q ∈ (calculate_ray_tracing_values model 0 source_depth).2, q.1 = 0) ∧
    (∀ x ∈ (create_coordinates (source_depth : ℝ)
        (calculate_ray_tracing_values model 0 source_depth).1).1, x = 0) ∧
    ((∃ l ∈ model, is_layer_exist_source source_depth l = true) →
      (calculate_ray_tracing_values model 0 source_depth).1.length =
        model.length - model.findIdx (is_layer_exist_source source_depth)) := by
  obtain ⟨h1, h2⟩ := trace_entry_zero_mem source_depth model 0
  refine ⟨h1, h2, ?_, ?_⟩
  · rw [create_coordinates]
    apply accumulate_const
    intro a ha
    obtain ⟨p, hp, hpa⟩ := List.mem_map.mp ha
    rw [← hpa]
    exact h1 p hp
  · intro hex
    exact trace_length_eq_sub 0 source_depth model 0 hex
      (no_stop_zero _)

/-- C3 (amended).  The vertex polyline starts at `(0, source_depth)`; there
is exactly one label per vertex except the last; the vertex count is at most
`N + 1` where `N` counts the layers from the first source-containing layer to
the last; and it is exactly `N + 1` when some layer contains the source and
no traversed boundary computes the sentinel `-2` (in particular no critical
angle and no refraction angle of exactly `-2` degrees). -/
theorem vertex_label_count (model : List Layer) (incid_angle : ℝ) (source_depth : ℚ) :
    (create_coordinates (source_depth : ℝ)
        (calculate_ray_tracing_values model incid_angle source_depth).1).1.head? = some 0 ∧
    (create_coordinates (source_depth : ℝ)
        (calculate_ray_tracing_values model incid_angle source_depth).1).2.head? =
      some (source_depth : ℝ) ∧
    (calculate_ray_tracing_values model incid_angle source_depth).2.length + 1 =
      (create_coordinates (source_depth : ℝ)
        (calculate_ray_tracing_values model incid_angle source_depth).1).1.length ∧
    (create_coordinates (source_depth : ℝ)
        (calculate_ray_tracing_values model incid_angle source_depth).1).2.length =
      (create_coordinates (source_depth : ℝ)
        (calculate_ray_tracing_values model incid_angle source_depth).1).1.length ∧
    (create_coordinates (source_depth : ℝ)
        (calculate_ray_tracing_values model incid_angle source_depth).1).1.length ≤
      model.length - model.findIdx (is_layer_exist_source source_depth) + 1 ∧
    ((∃ l ∈ model, is_layer_exist_source source_depth l = true) →
      no_stop (model.drop (model.findIdx (is_layer_exist_source source_depth))) incid_angle →
      (create_coordinates (source_depth : ℝ)
          (calculate_ray_tracing_values model incid_angle source_depth).1).1.length =
        model.length - model.findIdx (is_layer_exist_source source_depth) + 1) := by
  have hlen1 : (create_coordinates (source_depth : ℝ)
      (calculate_ray_tracing_values model incid_angle source_depth).1).1.length =
      (calculate_ray_tracing_values model incid_angle source_depth).1.length + 1 := by
    rw [create_coordinates, accumulate_length, List.length_map]
  have hlen2 : (create_coordinates (source_depth : ℝ)
      (calculate_ray_tracing_values model incid_angle source_depth).1).2.length =
      (calculate_ray_tracing_values model incid_angle source_depth).1.length + 1 := by
    rw [create_coordinates, accumulate_length, List.length_map]
  refine ⟨?_, ?_, ?_, ?_, ?_, ?_⟩
  · rw [create_coordinates]
    exact accumulate_head _ _
  · rw [create_coordinates]
    exact accumulate_head _ _
  · rw [hlen1, calculate_ray_tracing_values, trace_lengths_eq]
  · rw [hlen1, hlen2]
  · rw [hlen1]
    exact Nat.add_le_add_right (trace_length_le_sub incid_angle source_depth model 0) 1
  · intro hex hns
    rw [hlen1]
    rw [calculate_ray_tracing_values, trace_length_eq_sub incid_angle source_depth model 0 hex hns]

/-- C3 (counterexample to the exactness clause as stated).  Two layers of
equal velocity `1`, source at depth `0` in the first layer, incidence angle
`-2` degrees: the sine magnitude at the single evaluated boundary is below
one — no critical angle is hit — yet the trace emits only 2 vertices where
`N + 1 = 3` would be expected, because the genuinely computed refraction
angle `-2` collides with the code's critical-angle sentinel. -/
theorem vertex_count_counterexample :
    |Real.sin (radians (-2)) * ((1 : ℝ) / 1)| ≤ 1 ∧
    (create_coordinates ((0 : ℚ) : ℝ)
        (calculate_ray_tracing_values [⟨0, 10, 1⟩, ⟨10, 20, 1⟩] (-2) 0).1).1.length = 2 ∧
    ([(⟨0, 10, 1⟩ : Layer), ⟨10, 20, 1⟩].length -
        [(⟨0, 10, 1⟩ : Layer), ⟨10, 20, 1⟩].findIdx (is_layer_exist_source 0)) + 1 = 3 := by
  have hP : is_layer_exist_source 0 (Layer.mk 0 10 1) = true := by decide
  have hproc : (!is_layer_exist_source 0 (Layer.mk 0 10 1) && !false) = false := by
    simp [hP]
  have hstop : count_angle
      (if is_layer_exist_source 0 (Layer.mk 0 10 1) && !false then (-2 : ℝ) else 0)
      (Layer.mk 0 10 1).speed (Layer.mk 10 20 1).speed = -2 := by
    simp only [hP, Bool.not_false, Bool.and_self, if_true]
    exact count_angle_neg_two_self
  refine ⟨abs_sin_neg_two_le_one, ?_, ?_⟩
  · rw [calculate_ray_tracing_values, trace_loop_cons_stop (-2) [] 0 hproc hstop]
    simp [create_coordinates, accumulate]
  · rw [List.findIdx_cons, hP, cond_true]
    rfl

/-! ### Validation facts -/

lemma list_length_three {α : Type} {l : List α} (h : l.length = 3) :
    ∃ a b c, l = [a, b, c] := by
  rcases l with _ | ⟨a, _ | ⟨b, _ | ⟨c, _ | ⟨e, t⟩⟩⟩⟩
  · simp at h
  · simp at h
  · simp at h
  · exact ⟨a, b, c, rfl⟩
  · simp only [List.length_cons] at h
    omega

/-- When every layer has its 3 entries, the layer loop of the numeric check
raises nothing and finishes (its per-field test is always true). -/
lemma layerNumericScan_of_count {m : List (List Val)}
    (h : is_layer_data_count_correct m = true) : layerNumericScan m = some true := by
  induction m with
  | nil => rfl
  | cons layer rest ih =>
    rw [is_layer_data_count_correct, List.all_cons, Bool.and_eq_true] at h
    obtain ⟨h1, h2⟩ := h
    obtain ⟨a, b, c, rfl⟩ := list_length_three (by simpa using h1)
    rw [layerNumericScan]
    simpa [Bool.or_true] using ih h2

/-- The numeric check returns `False` on every input on which it does not
raise: with all layers complete it runs through and hits the always-true
`type(self.incid_angle) is not int or float` branch. -/
lemma numeric_check_of_count (a d : Val) {m : List (List Val)}
    (h : is_layer_data_count_correct m = true) :
    is_input_data_integer_or_float m a d = some false := by
  rw [is_input_data_integer_or_float, layerNumericScan_of_count h]
  simp [Bool.or_true]

/-- C6 (code evaluation).  On an input whose every layer field, incidence
angle and source depth are numeric (all integers here), the numeric type
check nevertheless returns `False`, and the validate-then-trace entry point
reports the non-numeric-input message: the python test
`type(x) is int or float` is always truthy and the angle test
`type(self.incid_angle) is not int or float` likewise, so the method returns
`False` unconditionally, contradicting its documented meaning. -/
theorem numeric_check_rejects_numeric_input :
    is_input_data_integer_or_float [[Val.vInt 0, Val.vInt 100, Val.vInt 2000]]
        (Val.vInt 0) (Val.vInt 50) = some false ∧
      check_input_data_correctness [[Val.vInt 0, Val.vInt 100, Val.vInt 2000]]
        (Val.vInt 0) (Val.vInt 50) = Outcome.err "Input data is not integer or float" := by
  constructor <;> rfl

/-- The fractional depth `50.5 = 101/2`, written as an explicit reduced
fraction so that its numerator and denominator compute. -/
def halfDepth : ℚ := ⟨101, 2, by norm_num, by norm_num⟩

lemma halfDepth_eq : halfDepth = 101 / 2 := by
  rw [halfDepth, Rat.mk'_eq_divInt, Rat.divInt_eq_div]
  norm_num

/-- C4 (code evaluation).  With the single layer `(0, 100, 2000)` and the
fractional source depth `50.5`, the half-open interval test
`top <= depth < bottom` holds, yet the source-containment check returns
`False`: python's `50.5 in range(0, 100)` is false because `range` only
contains integers. -/
theorem source_containment_code_eval :
    is_source_occur_in_seismic_model [[Val.vInt 0, Val.vInt 100, Val.vInt 2000]]
        (Val.vFloat halfDepth) = some false ∧
      (0 : ℚ) ≤ halfDepth ∧ halfDepth < 100 := by
  refine ⟨by decide, ?_, ?_⟩ <;> rw [halfDepth_eq] <;> norm_num

/-- C7.  For every input the validate-then-trace entry point terminates with
a discriminated outcome — an error message or a trace result — and never
with an uncaught exception.  (In fact the degenerate numeric check stops
every input at or before its stage, so tracing — and with it any division —
is never even reached through this entry point.) -/
theorem entry_point_discriminated (m : List (List Val)) (a d : Val) :
    check_input_data_correctness m a d ≠ Outcome.crash ∧
      ((∃ s, check_input_data_correctness m a d = Outcome.err s) ∨
        ∃ r, check_input_data_correctness m a d = Outcome.traced r) := by
  by_cases hc : is_layer_data_count_correct m = true
  · have hn := numeric_check_of_count a d hc
    constructor
    · simp [check_input_data_correctness, hc, hn]
    · exact Or.inl ⟨"Input data is not integer or float",
        by simp [check_input_data_correctness, hc, hn]⟩
  · have hc' : is_layer_data_count_correct m = false := Bool.eq_false_iff.mpr hc
    constructor
    · simp [check_input_data_correctness, hc']
    · exact Or.inl ⟨"Layer data is incorrect", by simp [check_input_data_correctness, hc']⟩

/-- C5.  The four validation checks run in the source's fixed order; the
first failing check short-circuits with its own message and nothing later
runs; a layer with other than 3 fields forces the malformed-layer message
regardless of every other field; and a trace result can only be produced
when all four checks pass. -/
theorem validation_short_circuit (m : List (List Val)) (a d : Val) :
    ((∃ layer ∈ m, layer.length ≠ 3) →
      check_input_data_correctness m a d = Outcome.err "Layer data is incorrect") ∧
    (is_layer_data_count_correct m = true →
      is_input_data_integer_or_float m a d = some false →
      check_input_data_correctness m a d = Outcome.err "Input data is not integer or float") ∧
    (is_layer_data_count_correct m = true →
      is_input_data_integer_or_float m a d = some true →
      is_speed_data_correct m = some false →
      check_input_data_correctness m a d = Outcome.err "Speed value is not correct") ∧
    (is_layer_data_count_correct m = true →
      is_input_data_integer_or_float m a d = some true →
      is_speed_data_correct m = some true →
      is_source_occur_in_seismic_model m d = some false →
      check_input_data_correctness m a d = Outcome.err "Source dont occur in seismic model.") ∧
    (∀ r, check_input_data_correctness m a d = Outcome.traced r →
      is_layer_data_count_correct m = true ∧
      is_input_data_integer_or_float m a d = some true ∧
      is_speed_data_correct m = some true ∧
      is_source_occur_in_seismic_model m d = some true) := by
  refine ⟨?_, ?_, ?_, ?_, ?_⟩
  · rintro ⟨layer, hmem, hlen⟩
    have hc : is_layer_data_count_correct m = false := by
      refine Bool.eq_false_iff.mpr fun hall => hlen ?_
      rw [is_layer_data_count_correct, List.all_eq_true] at hall
      simpa using hall layer hmem
    simp [check_input_data_correctness, hc]
  · intro h1 h2
    simp [check_input_data_correctness, h1, h2]
  · intro h1 h2 h3
    simp [check_input_data_correctness, h1, h2, h3]
  · intro h1 h2 h3 h4
    simp [check_input_data_correctness, h1, h2, h3, h4]
  · intro r h
    by_cases hc : is_layer_data_count_correct m = true
    · rw [check_input_data_correctness, hc] at h
      simp [numeric_check_of_count a d hc] at h
    · rw [check_input_data_correctness, Bool.eq_false_iff.mpr hc] at h
      simp at h

end RayTracing
